import Mathlib

/-!
Verification of the tutorial notebooks of this repository.

The repository's source (under scrutiny here) consists of two Jupyter
notebooks:
  * `tutorials/4 Analysis/B. Advanced - Direct use of the renderers/4.19
    Analyze a transmon using ElmerFEM.ipynb`
  * `tutorials/FlipChip_designtutorial.ipynb`

We embed the Python code of every code cell of both notebooks as an abstract
syntax tree (`PyExpr`, `PyStmt`), cell by cell, and prove structural and
semantic properties of that code: absence of function/class definitions,
which cells contain conditionals, pipeline-stage ordering, handle
open/close discipline, the `open_pins` arguments, the ANSYS material guard,
and the capacitance-matrix save/load round trip.
-/

namespace QiskitMetalNotebooks

/-- Python expressions, as they occur in the notebooks' code cells.
Numeric literals keep their source text (their values are never needed). -/
inductive PyExpr where
  | name (s : String)
  | strLit (s : String)
  | numLit (s : String)
  | boolLit (b : Bool)
  | call (fn : PyExpr) (args : List PyExpr) (kwargs : List (String × PyExpr))
  | attr (obj : PyExpr) (field : String)
  | sub (obj : PyExpr) (idx : PyExpr)
  | dictLit (entries : List (PyExpr × PyExpr))
  | listLit (elems : List PyExpr)
  | tupleLit (elems : List PyExpr)
  | notE (e : PyExpr)
  | binop (op : String) (a b : PyExpr)
  | starstar (e : PyExpr)
  | fmt (template : String) (args : List PyExpr)
  | awaitE (e : PyExpr)

/-- Python statements of the notebooks.  The constructors for loops,
try/except, assert and function/class definitions are present so that their
absence from the transcribed code is a statement about the code, not about
the embedding. -/
inductive PyStmt where
  | impMod (modul : String) (asName : Option String)
  | impFrom (modul : String) (names : List String)
  | magic (text : String)
  | assign (target : PyExpr) (value : PyExpr)
  | exprStmt (e : PyExpr)
  | ifStmt (cond : PyExpr) (thenBody elseBody : List PyStmt)
  | forStmt (var : String) (iter : PyExpr) (body : List PyStmt)
  | whileStmt (cond : PyExpr) (body : List PyStmt)
  | tryStmt (body handler : List PyStmt)
  | assertStmt (e : PyExpr)
  | funcDef (nm : String) (params : List String) (body : List PyStmt)
  | classDef (nm : String) (body : List PyStmt)
  | asyncFuncDef (nm : String) (params : List String) (body : List PyStmt)

mutual

/-- Does `p` hold of the expression or any of its subexpressions? -/
def exprAny (p : PyExpr → Bool) (e : PyExpr) : Bool :=
  p e ||
  match e with
  | .call f as ks => exprAny p f || exprListAny p as || kwargsAny p ks
  | .attr o _ => exprAny p o
  | .sub o i => exprAny p o || exprAny p i
  | .dictLit es => entriesAny p es
  | .listLit es => exprListAny p es
  | .tupleLit es => exprListAny p es
  | .notE a => exprAny p a
  | .binop _ a b => exprAny p a || exprAny p b
  | .starstar a => exprAny p a
  | .fmt _ as => exprListAny p as
  | .awaitE a => exprAny p a
  | _ => false

def exprListAny (p : PyExpr → Bool) : List PyExpr → Bool
  | [] => false
  | e :: es => exprAny p e || exprListAny p es

def kwargsAny (p : PyExpr → Bool) : List (String × PyExpr) → Bool
  | [] => false
  | (_, e) :: es => exprAny p e || kwargsAny p es

def entriesAny (p : PyExpr → Bool) : List (PyExpr × PyExpr) → Bool
  | [] => false
  | (k, v) :: es => exprAny p k || exprAny p v || entriesAny p es

end

mutual

/-- Does `p` hold of the statement or any statement nested inside it? -/
def stmtAny (p : PyStmt → Bool) (s : PyStmt) : Bool :=
  p s ||
  match s with
  | .ifStmt _ tb eb => stmtsAny p tb || stmtsAny p eb
  | .forStmt _ _ b => stmtsAny p b
  | .whileStmt _ b => stmtsAny p b
  | .tryStmt b h => stmtsAny p b || stmtsAny p h
  | .funcDef _ _ b => stmtsAny p b
  | .classDef _ b => stmtsAny p b
  | .asyncFuncDef _ _ b => stmtsAny p b
  | _ => false

def stmtsAny (p : PyStmt → Bool) : List PyStmt → Bool
  | [] => false
  | s :: ss => stmtAny p s || stmtsAny p ss

end

mutual

/-- Does `p` hold of some expression occurring anywhere in the statement,
including inside nested bodies? -/
def stmtAnyExpr (p : PyExpr → Bool) (s : PyStmt) : Bool :=
  match s with
  | .assign t v => exprAny p t || exprAny p v
  | .exprStmt e => exprAny p e
  | .ifStmt c tb eb => exprAny p c || stmtsAnyExpr p tb || stmtsAnyExpr p eb
  | .forStmt _ it b => exprAny p it || stmtsAnyExpr p b
  | .whileStmt c b => exprAny p c || stmtsAnyExpr p b
  | .tryStmt b h => stmtsAnyExpr p b || stmtsAnyExpr p h
  | .assertStmt e => exprAny p e
  | .funcDef _ _ b => stmtsAnyExpr p b
  | .classDef _ b => stmtsAnyExpr p b
  | .asyncFuncDef _ _ b => stmtsAnyExpr p b
  | _ => false

def stmtsAnyExpr (p : PyExpr → Bool) : List PyStmt → Bool
  | [] => false
  | s :: ss => stmtAnyExpr p s || stmtsAnyExpr p ss

end

/-! ## Transcription of `4.19 Analyze a transmon using ElmerFEM.ipynb`

Each definition below is the list of statements of one code cell, in
notebook order; cell numbers are the cell indices in the `.ipynb` file. -/

def elmerCell2 : List PyStmt := [
  .magic "%load_ext autoreload",
  .magic "%autoreload 2",
  .impFrom "qiskit_metal" ["MetalGUI", "designs"],
  .impFrom "qiskit_metal.qlibrary.qubits.transmon_pocket_6" ["TransmonPocket6"],
  .impFrom "qiskit_metal.renderers.renderer_gmsh.gmsh_renderer" ["QGmshRenderer"],
  .impFrom "qiskit_metal.renderers.renderer_elmer.elmer_renderer" ["QElmerRenderer"],
  .impFrom "qiskit_metal.renderers.renderer_elmer.elmer_renderer"
    ["load_capacitance_matrix_from_file"]]

def elmerCell3 : List PyStmt :=
  [.magic "%metal_heading 1. Create a Transmon Qubit in Qiskit Metal"]

def elmerCell4 : List PyStmt := [
  .assign (.name "design")
    (.call (.attr (.name "designs") "MultiPlanar") [.dictLit [], .boolLit true] []),
  .assign (.name "gui") (.call (.name "MetalGUI") [.name "design"] [])]

def elmerCell5 : List PyStmt := [
  .assign (.name "conn_pads")
    (.call (.name "dict") []
      [("connection_pads",
        .call (.name "dict") []
          [("readout",
            .call (.name "dict") [] [("loc_W", .numLit "0"), ("loc_H", .numLit "-1")]),
           ("coupler1",
            .call (.name "dict") [] [("loc_W", .numLit "-1"), ("loc_H", .numLit "1")]),
           ("coupler2",
            .call (.name "dict") [] [("loc_W", .numLit "1"), ("loc_H", .numLit "1")])])]),
  .assign (.name "q1")
    (.call (.name "TransmonPocket6") [.name "design", .strLit "Q1"]
      [("options", .call (.name "dict") [.starstar (.name "conn_pads")] [])]),
  .exprStmt (.call (.attr (.name "gui") "rebuild") [] []),
  .exprStmt (.call (.attr (.name "gui") "autoscale") [] [])]

def elmerCell6 : List PyStmt :=
  [.magic "%metal_heading 2. Rendering and meshing your design in the QGmshRenderer"]

/-- The `open_pins` argument, identical in all four `render_design` calls. -/
def openPinsArg : PyExpr :=
  .listLit [.tupleLit [.strLit "Q1", .strLit "coupler1"],
            .tupleLit [.strLit "Q1", .strLit "coupler2"],
            .tupleLit [.strLit "Q1", .strLit "readout"]]

def elmerCell8 : List PyStmt := [
  .assign (.name "gmsh_renderer") (.call (.name "QGmshRenderer") [.name "design"] []),
  .exprStmt (.call (.attr (.name "gmsh_renderer") "render_design") []
    [("open_pins", openPinsArg), ("mesh_geoms", .boolLit false)])]

def elmerCell9 : List PyStmt :=
  [.exprStmt (.call (.attr (.name "gmsh_renderer") "launch_gui") [] [])]

def elmerCell11 : List PyStmt := [
  .exprStmt (.call (.attr (.name "gmsh_renderer") "add_mesh") []
    [("dim", .numLit "3"), ("intelli_mesh", .boolLit false)]),
  .exprStmt (.call (.attr (.name "gmsh_renderer") "launch_gui") [] [])]

def elmerCell13 : List PyStmt := [
  .assign (.attr (.attr (.attr (.name "gmsh_renderer") "options") "mesh") "min_size")
    (.strLit "5um"),
  .assign (.attr (.attr (.attr (.name "gmsh_renderer") "options") "mesh") "max_size")
    (.strLit "20um"),
  .exprStmt (.call (.attr (.name "gmsh_renderer") "render_design") []
    [("open_pins", openPinsArg), ("mesh_geoms", .boolLit false)]),
  .exprStmt (.call (.attr (.name "gmsh_renderer") "add_mesh") []
    [("intelli_mesh", .boolLit false)]),
  .exprStmt (.call (.attr (.name "gmsh_renderer") "launch_gui") [] [])]

def elmerCell15 : List PyStmt := [
  .assign (.attr (.attr (.attr (.name "gmsh_renderer") "options") "mesh") "min_size")
    (.strLit "5um"),
  .assign (.attr (.attr (.attr (.name "gmsh_renderer") "options") "mesh") "max_size")
    (.strLit "50um"),
  .exprStmt (.call (.attr (.name "gmsh_renderer") "render_design") []
    [("open_pins", openPinsArg), ("mesh_geoms", .boolLit true)]),
  .exprStmt (.call (.attr (.name "gmsh_renderer") "launch_gui") [] [])]

def elmerCell17 : List PyStmt :=
  [.exprStmt (.call (.attr (.name "gmsh_renderer") "export_mesh") [.strLit "test.msh"] [])]

def elmerCell18 : List PyStmt :=
  [.exprStmt (.call (.attr (.name "gmsh_renderer") "close") [] [])]

def elmerCell19 : List PyStmt :=
  [.magic "%metal_heading 3. Rendering your design in QElmerRenderer (uses QGmshRenderer)"]

def elmerCell20 : List PyStmt := [
  .assign (.name "elmer_renderer") (.call (.name "QElmerRenderer") [.name "design"] []),
  .assign (.attr (.attr (.attr (.attr (.name "elmer_renderer") "gmsh") "options") "mesh")
      "min_size") (.strLit "5um"),
  .assign (.attr (.attr (.attr (.attr (.name "elmer_renderer") "gmsh") "options") "mesh")
      "max_size") (.strLit "50um")]

def elmerCell21 : List PyStmt := [
  .exprStmt (.call (.attr (.name "elmer_renderer") "render_design") []
    [("open_pins", openPinsArg), ("skip_junctions", .boolLit true)])]

def elmerCell22 : List PyStmt :=
  [.exprStmt (.call (.attr (.name "elmer_renderer") "launch_gmsh_gui") [] [])]

def elmerCell23 : List PyStmt :=
  [.exprStmt (.call (.attr (.name "elmer_renderer") "export_mesh") [] [])]

def elmerCell24 : List PyStmt :=
  [.exprStmt (.call (.attr (.name "elmer_renderer") "add_solution_setup")
    [.strLit "capacitance"] [])]

def elmerCell25 : List PyStmt :=
  [.exprStmt (.call (.attr (.name "elmer_renderer") "run") [.strLit "capacitance"] [])]

def elmerCell26 : List PyStmt :=
  [.exprStmt (.attr (.name "elmer_renderer") "capacitance_matrix")]

def elmerCell27 : List PyStmt :=
  [.exprStmt (.call (.attr (.name "elmer_renderer") "display_post_processing_data") [] [])]

def elmerCell28 : List PyStmt := [
  .exprStmt (.call (.attr (.name "elmer_renderer") "save_capacitance_matrix")
    [.strLit "cap_matrix.txt"] []),
  .exprStmt (.call (.attr (.name "elmer_renderer") "close") [] [])]

def elmerCell29 : List PyStmt := [.magic "%metal_heading 4. Perform LOM 2.0 Analysis"]

def elmerCell30 : List PyStmt := [
  .impMod "numpy" (some "np"),
  .impFrom "qiskit_metal.analyses.quantization.lom_core_analysis"
    ["CompositeSystem", "Cell", "Subsystem"],
  .impFrom "scipy.constants" ["speed_of_light"],
  .impMod "matplotlib.pyplot" (some "plt"),
  .magic "%matplotlib inline"]

def elmerCell31 : List PyStmt := [
  .assign (.name "cap_matrix")
    (.call (.name "load_capacitance_matrix_from_file") [.strLit "cap_matrix.txt"] [])]

def elmerCell32 : List PyStmt := [
  .assign (.name "opt1")
    (.call (.name "dict") []
      [("node_rename",
        .dictLit [(.strLit "Q1_coupler1_connector_pad", .strLit "coupler1"),
                  (.strLit "Q1_coupler2_connector_pad", .strLit "coupler2"),
                  (.strLit "Q1_readout_connector_pad", .strLit "readout")]),
       ("cap_mat", .name "cap_matrix"),
       ("ind_dict",
        .dictLit [(.tupleLit [.strLit "Q1_pad_top", .strLit "Q1_pad_bot"], .numLit "12")]),
       ("jj_dict",
        .dictLit [(.tupleLit [.strLit "Q1_pad_top", .strLit "Q1_pad_bot"], .strLit "j1")]),
       ("cj_dict",
        .dictLit [(.tupleLit [.strLit "Q1_pad_top", .strLit "Q1_pad_bot"],
                   .numLit "2")])]),
  .assign (.name "cell_1") (.call (.name "Cell") [.name "opt1"] [])]

def elmerCell33 : List PyStmt := [
  .assign (.name "transmon")
    (.call (.name "Subsystem") []
      [("name", .strLit "transmon1_sys"), ("sys_type", .strLit "TRANSMON"),
       ("nodes", .listLit [.strLit "j1"])]),
  .assign (.name "q_opts")
    (.call (.name "dict") []
      [("f_res", .numLit "7.4"), ("Z0", .numLit "50"),
       ("vp", .binop "*" (.numLit "0.404314") (.name "c_light"))]),
  .assign (.name "coup1")
    (.call (.name "Subsystem") []
      [("name", .strLit "coup1_sys"), ("sys_type", .strLit "TL_RESONATOR"),
       ("nodes", .listLit [.strLit "coupler1"]), ("q_opts", .name "q_opts")]),
  .assign (.name "q_opts")
    (.call (.name "dict") []
      [("f_res", .numLit "7.2"), ("Z0", .numLit "50"),
       ("vp", .binop "*" (.numLit "0.404314") (.name "c_light"))]),
  .assign (.name "coup2")
    (.call (.name "Subsystem") []
      [("name", .strLit "coup2_sys"), ("sys_type", .strLit "TL_RESONATOR"),
       ("nodes", .listLit [.strLit "coupler2"]), ("q_opts", .name "q_opts")]),
  .assign (.name "q_opts")
    (.call (.name "dict") []
      [("f_res", .numLit "7"), ("Z0", .numLit "50"),
       ("vp", .binop "*" (.numLit "0.404314") (.name "c_light"))]),
  .assign (.name "readout")
    (.call (.name "Subsystem") []
      [("name", .strLit "readout_sys"), ("sys_type", .strLit "TL_RESONATOR"),
       ("nodes", .listLit [.strLit "readout"]), ("q_opts", .name "q_opts")])]

def elmerCell34 : List PyStmt := [
  .assign (.name "composite_sys")
    (.call (.name "CompositeSystem") []
      [("subsystems",
        .listLit [.name "transmon", .name "coup1", .name "coup2", .name "readout"]),
       ("cells", .listLit [.name "cell_1"]),
       ("grd_node", .strLit "ground_plane"),
       ("nodes_force_keep",
        .listLit [.strLit "coupler1", .strLit "coupler2", .strLit "readout"])])]

def elmerCell35 : List PyStmt := [
  .assign (.name "cg") (.call (.attr (.name "composite_sys") "circuitGraph") [] []),
  .exprStmt (.call (.name "print") [.name "cg"] [])]

def elmerCell36 : List PyStmt := [
  .assign (.name "hilbertspace")
    (.call (.attr (.name "composite_sys") "create_hilbertspace") [] []),
  .exprStmt (.call (.name "print") [.name "hilbertspace"] [])]

def elmerCell37 : List PyStmt := [
  .assign (.name "hilbertspace")
    (.call (.attr (.name "composite_sys") "add_interaction") [] []),
  .exprStmt (.call (.attr (.name "hilbertspace") "hamiltonian") [] [])]

def elmerCell38 : List PyStmt := [
  .assign (.name "hamiltonian_results")
    (.call (.attr (.name "composite_sys") "hamiltonian_results") [.name "hilbertspace"]
      [("evals_count", .numLit "30")])]

def elmerCell39 : List PyStmt := [
  .assign (.name "chi_df")
    (.call (.attr (.sub (.name "hamiltonian_results") (.strLit "chi_in_MHz"))
      "to_dataframe") [] []),
  .exprStmt (.call (.name "print")
    [.strLit "Transmon frequency     :",
     .sub (.sub (.name "hamiltonian_results") (.strLit "fQ_in_Ghz"))
       (.strLit "transmon1_sys"),
     .strLit "GHz"] []),
  .exprStmt (.call (.name "print")
    [.strLit "Transmon Anharmonicity :",
     .sub (.sub (.name "chi_df") (.strLit "transmon1_sys")) (.strLit "transmon1_sys"),
     .strLit "MHz"] []),
  .exprStmt (.call (.name "print")
    [.strLit "Readou chi             :",
     .sub (.sub (.name "chi_df") (.strLit "readout_sys")) (.strLit "transmon1_sys"),
     .strLit "MHz"] [])]

def elmerCell40 : List PyStmt := [
  .exprStmt (.call (.attr
    (.call (.attr (.name "composite_sys") "compute_gs") [] []) "to_dataframe") [] [])]

def elmerCell41 : List PyStmt := [.exprStmt (.attr (.name "transmon") "h_params")]

def elmerCell42 : List PyStmt := [
  .exprStmt (.call (.attr (.attr (.name "gui") "main_window") "close") [] [])]

/-- The ElmerFEM notebook: its code cells in order. -/
def elmerNotebook : List (List PyStmt) := [
  elmerCell2, elmerCell3, elmerCell4, elmerCell5, elmerCell6, elmerCell8, elmerCell9,
  elmerCell11, elmerCell13, elmerCell15, elmerCell17, elmerCell18, elmerCell19,
  elmerCell20, elmerCell21, elmerCell22, elmerCell23, elmerCell24, elmerCell25,
  elmerCell26, elmerCell27, elmerCell28, elmerCell29, elmerCell30, elmerCell31,
  elmerCell32, elmerCell33, elmerCell34, elmerCell35, elmerCell36, elmerCell37,
  elmerCell38, elmerCell39, elmerCell40, elmerCell41, elmerCell42]

/-- All statements of the ElmerFEM notebook, in execution order. -/
def elmerStmts : List PyStmt := elmerNotebook.flatten

/-! ## Transcription of `FlipChip_designtutorial.ipynb` -/

def flipCell2 : List PyStmt := [
  .magic "%reload_ext autoreload",
  .magic "%autoreload 2"]

def flipCell3 : List PyStmt := [
  .impMod "qiskit_metal" (some "metal"),
  .impFrom "qiskit_metal" ["designs", "draw"],
  .impFrom "qiskit_metal" ["MetalGUI", "Dict", "Headings"],
  .impFrom "qiskit_metal.qlibrary.qubits.transmon_cross" ["TransmonCross"],
  .impFrom "qiskit_metal.qlibrary.resonators.readoutres_fc" ["ReadoutResFC"],
  .impMod "warnings" none,
  .exprStmt (.call (.attr (.name "warnings") "filterwarnings") [.strLit "ignore"]
    [("category", .name "Warning")])]

def flipCell4 : List PyStmt := [
  .assign (.name "design") (.call (.attr (.name "designs") "DesignFlipChip") [] []),
  .assign (.sub (.attr (.name "design") "metadata") (.strLit "design_name"))
    (.strLit "FlipChip_Device"),
  .assign (.name "gui") (.call (.name "MetalGUI") [.name "design"] []),
  .assign (.attr (.name "design") "overwrite_enabled") (.boolLit true)]

def flipCell6 : List PyStmt := [
  .exprStmt (.call (.attr (.name "design") "delete_all_components") [] []),
  .assign (.name "options_cpads")
    (.call (.name "Dict") []
      [("connector_type", .strLit "0"), ("claw_length", .strLit "30um"),
       ("ground_spacing", .strLit "5um"), ("claw_width", .strLit "10um"),
       ("claw_gap", .strLit "6um")]),
  .assign (.name "options")
    (.call (.name "Dict") []
      [("chip", .strLit "Q_chip"), ("cross_width", .strLit "20um"),
       ("cross_length", .strLit "150um"), ("cross_gap", .strLit "20um"),
       ("connection_pads",
        .call (.name "Dict") []
          [("claw_west",
            .call (.name "Dict") [.starstar (.name "options_cpads")]
              [("connector_location", .strLit "180")])])]),
  .assign (.name "q1_x") (.strLit "0.0 mm"),
  .assign (.name "q1_y") (.strLit "0.0 mm"),
  .assign (.name "q1")
    (.call (.name "TransmonCross") [.name "design", .strLit "Q1"]
      [("options",
        .call (.name "Dict") [.starstar (.name "options")]
          [("pos_x", .name "q1_x"), ("pos_y", .name "q1_y")])]),
  .exprStmt (.call (.attr (.name "gui") "rebuild") [] []),
  .exprStmt (.call (.attr (.name "gui") "autoscale") [] [])]

def flipCell7 : List PyStmt := [
  .assign (.name "options")
    (.call (.name "Dict") []
      [("chip", .strLit "C_chip"), ("readout_radius", .strLit "20 um"),
       ("readout_cpw_width", .strLit "10 um"), ("readout_cpw_gap", .strLit "10 um"),
       ("readout_cpw_turnradius", .strLit "50 um"), ("readout_l1", .strLit "600 um"),
       ("readout_l2", .strLit "200 um"), ("readout_l3", .strLit "300 um"),
       ("readout_l4", .strLit "150 um"), ("readout_l5", .strLit "550 um"),
       ("arc_step", .strLit "5 um")]),
  .assign (.name "r1")
    (.call (.name "ReadoutResFC") [.name "design", .strLit "R1"]
      [("options",
        .call (.name "Dict") [.starstar (.name "options")]
          [("pos_x", .name "q1_x"), ("pos_y", .name "q1_y")])]),
  .exprStmt (.call (.attr (.name "gui") "rebuild") [] []),
  .exprStmt (.call (.attr (.name "gui") "autoscale") [] [])]

def flipCell10 : List PyStmt := [.exprStmt (.attr (.name "design") "chips")]

def flipCell12 : List PyStmt := [
  .exprStmt (.sub (.sub (.sub (.attr (.name "design") "chips") (.strLit "C_chip"))
    (.strLit "size")) (.strLit "center_z"))]

def flipCell13 : List PyStmt := [
  .exprStmt (.sub (.sub (.sub (.attr (.name "design") "chips") (.strLit "Q_chip"))
    (.strLit "size")) (.strLit "center_z"))]

def flipCell15 : List PyStmt := [
  .assign (.sub (.sub (.sub (.attr (.name "design") "chips") (.strLit "Q_chip"))
    (.strLit "size")) (.strLit "center_z")) (.strLit "10 um"),
  .exprStmt (.sub (.sub (.sub (.attr (.name "design") "chips") (.strLit "Q_chip"))
    (.strLit "size")) (.strLit "center_z"))]

def flipCell17 : List PyStmt := [
  .assign (.name "newMaterial_name") (.strLit "Si_11.45"),
  .assign (.name "newMaterial_permittivity") (.strLit "11.45"),
  .assign (.name "newMaterial_losstangent") (.strLit "1e-7")]

def flipCell18 : List PyStmt := [
  .impFrom "pyEPR" ["ansys", "project_info"],
  .assign (.name "ans_prj") (.call (.attr (.name "project_info") "ProjectInfo") [] []),
  .assign (.name "oProject") (.attr (.attr (.name "ans_prj") "project") "_project"),
  .assign (.name "defmanager")
    (.call (.attr (.name "oProject") "GetDefinitionManager") [] []),
  .ifStmt
    (.notE (.call (.attr (.name "defmanager") "DoesMaterialExist")
      [.name "newMaterial_name"] []))
    [.exprStmt (.call (.attr (.name "defmanager") "AddMaterial")
      [.listLit
        [.fmt "NAME:%s" [.name "newMaterial_name"],
         .strLit "CoordinateSystemType:=", .strLit "Cartesian",
         .strLit "BulkOrSurfaceType:=", .numLit "1",
         .listLit [.strLit "NAME:PhysicsTypes", .strLit "set:=",
                   .listLit [.strLit "Electromagnetic"]],
         .strLit "permittivity:=", .fmt "%s" [.name "newMaterial_permittivity"],
         .strLit "dielectric_loss_tangent:=",
         .fmt "%s" [.name "newMaterial_losstangent"]]] [])]
    [],
  .exprStmt (.call (.attr (.attr (.name "ans_prj") "project") "release") [] []),
  .exprStmt (.call (.attr (.attr (.name "ans_prj") "desktop") "release") [] []),
  .exprStmt (.call (.attr (.attr (.name "ans_prj") "app") "release") [] []),
  .exprStmt (.call (.attr (.name "ansys") "release") [] [])]

def flipCell19 : List PyStmt := [
  .assign (.sub (.sub (.attr (.name "design") "chips") (.strLit "C_chip"))
    (.strLit "material")) (.name "newMaterial_name"),
  .assign (.sub (.sub (.attr (.name "design") "chips") (.strLit "Q_chip"))
    (.strLit "material")) (.name "newMaterial_name")]

def flipCell21 : List PyStmt := [
  .impFrom "qiskit_metal.analyses.quantization" ["EPRanalysis"],
  .assign (.name "eig_fc") (.call (.name "EPRanalysis") [.name "design", .strLit "hfss"] []),
  .exprStmt (.attr (.attr (.name "eig_fc") "sim") "setup")]

def flipCell22 : List PyStmt := [
  .assign (.attr (.attr (.attr (.name "eig_fc") "sim") "setup") "max_passes")
    (.numLit "20"),
  .assign (.attr (.attr (.attr (.attr (.name "eig_fc") "sim") "setup") "vars") "Lj")
    (.strLit "10 nH"),
  .assign (.attr (.attr (.attr (.name "eig_fc") "sim") "setup") "n_modes") (.numLit "2"),
  .assign (.attr (.attr (.attr (.name "eig_fc") "sim") "setup") "max_delta_f")
    (.numLit "1"),
  .assign (.attr (.attr (.attr (.name "eig_fc") "sim") "setup") "min_freq_ghz")
    (.numLit "1.5"),
  .assign (.attr (.attr (.attr (.attr (.name "eig_fc") "setup") "junctions") "jj") "rect")
    (.strLit "JJ_rect_Lj_Q1_rect_jj"),
  .assign (.attr (.attr (.attr (.attr (.name "eig_fc") "setup") "junctions") "jj") "line")
    (.strLit "JJ_Lj_Q1_rect_jj_"),
  .exprStmt (.attr (.attr (.name "eig_fc") "sim") "setup")]

def flipCell24 : List PyStmt := [
  .exprStmt (.call (.attr (.attr (.name "eig_fc") "sim") "run") []
    [("name", .strLit "qubitres"),
     ("components", .listLit [.strLit "Q1", .strLit "R1"]),
     ("open_terminations", .listLit []),
     ("box_plus_buffer", .boolLit true)])]

def flipCell25 : List PyStmt := [
  .assign (.attr (.attr (.attr (.name "eig_fc") "setup") "dissipatives")
    "dielectrics_bulk") (.listLit [.strLit "Q_chip", .strLit "C_chip"]),
  .exprStmt (.call (.attr (.name "eig_fc") "run_epr") [] [])]

def flipCell26 : List PyStmt := [
  .exprStmt (.call (.attr (.attr (.name "eig_fc") "sim") "close") [] [])]

/-- The FlipChip notebook: its code cells in order. -/
def flipNotebook : List (List PyStmt) := [
  flipCell2, flipCell3, flipCell4, flipCell6, flipCell7, flipCell10, flipCell12,
  flipCell13, flipCell15, flipCell17, flipCell18, flipCell19, flipCell21, flipCell22,
  flipCell24, flipCell25, flipCell26]

/-- All statements of the FlipChip notebook, in execution order. -/
def flipStmts : List PyStmt := flipNotebook.flatten

/-- All statements of both notebooks of the repository. -/
def allStmts : List PyStmt := elmerStmts ++ flipStmts

/-! ## Structural predicates over the notebook code -/

/-- The statement is (or contains) a function, class or coroutine definition. -/
def definesFuncOrClass : PyStmt → Bool :=
  stmtAny fun s =>
    match s with
    | .funcDef _ _ _ => true
    | .classDef _ _ => true
    | .asyncFuncDef _ _ _ => true
    | _ => false

/-- The statement is (or contains) a conditional branch. -/
def hasBranch : PyStmt → Bool :=
  stmtAny fun s => match s with | .ifStmt _ _ _ => true | _ => false

/-- The statement is (or contains) a `for` or `while` loop. -/
def hasLoop : PyStmt → Bool :=
  stmtAny fun s =>
    match s with
    | .forStmt _ _ _ => true
    | .whileStmt _ _ => true
    | _ => false

/-- The statement is (or contains) a `try`/`except` handler. -/
def hasTry : PyStmt → Bool :=
  stmtAny fun s => match s with | .tryStmt _ _ => true | _ => false

/-- The statement is (or contains) an `assert`. -/
def hasAssert : PyStmt → Bool :=
  stmtAny fun s => match s with | .assertStmt _ => true | _ => false

/-- The statement contains no branch and no loop: it executes exactly once,
in cell order, on every run. -/
def straightLineStmt (s : PyStmt) : Bool := !(hasBranch s || hasLoop s)

/-- Every statement of the notebook is straight-line. -/
def straightLine (stmts : List PyStmt) : Bool := stmts.all straightLineStmt

/-- The expression contains a call of the method `m` on some object. -/
def callsMethodIn (ms : List String) : PyExpr → Bool :=
  exprAny fun e =>
    match e with
    | .call (.attr _ m) _ _ => ms.contains m
    | _ => false

/-- The expression contains a call of one of the named functions. -/
def callsFunctionIn (fs : List String) : PyExpr → Bool :=
  exprAny fun e =>
    match e with
    | .call (.name f) _ _ => fs.contains f
    | _ => false

/-- The expression mentions the identifier `t`, as a variable or attribute. -/
def mentionsIdent (t : String) : PyExpr → Bool :=
  exprAny fun e =>
    match e with
    | .name s => s == t
    | .attr _ f => f == t
    | _ => false

/-- A conditional whose condition queries an external system's state
(a method call on an external-library object). -/
def isExternalStateGuard (s : PyStmt) : Bool :=
  match s with
  | .ifStmt c _ _ => callsMethodIn ["DoesMaterialExist"] c
  | _ => false

/-- The single conditional of the FlipChip notebook: an `if` guarded by
`not defmanager.DoesMaterialExist(newMaterial_name)` whose then-branch is
exactly one `defmanager.AddMaterial(...)` call, with no else-branch. -/
def isGuardedAddMaterial (s : PyStmt) : Bool :=
  match s with
  | .ifStmt (.notE (.call (.attr (.name "defmanager") "DoesMaterialExist")
      [.name "newMaterial_name"] [])) [.exprStmt (.call
      (.attr (.name "defmanager") "AddMaterial") _ _)] [] => true
  | _ => false

/-- Modules imported by a statement. -/
def importedModules : PyStmt → List String
  | .impMod m _ => [m]
  | .impFrom m _ => [m]
  | _ => []

/-- Python's standard concurrency / parallelism modules. -/
def concurrencyModules : List String :=
  ["threading", "multiprocessing", "asyncio", "concurrent", "concurrent.futures",
   "subprocess", "queue"]

/-- The statement contains an `await` expression. -/
def hasAwait (s : PyStmt) : Bool :=
  stmtAnyExpr (fun e => match e with | .awaitE _ => true | _ => false) s

/-- The top-level expression computed by a statement, when there is one. -/
def stmtTopExpr : PyStmt → Option PyExpr
  | .assign _ v => some v
  | .exprStmt e => some e
  | _ => none

/-- Constructors that draw qubit/resonator geometry into the design. -/
def geometryCtors : List String := ["TransmonPocket6", "TransmonCross", "ReadoutResFC"]

/-- Renderer methods that mesh/render the design. -/
def renderMethods : List String := ["render_design", "add_mesh", "export_mesh"]

/-- Constructors of the quantization-analysis library used in post-processing. -/
def analysisCtors : List String :=
  ["Cell", "Subsystem", "CompositeSystem", "load_capacitance_matrix_from_file"]

/-- Post-processing analysis methods (LOM / EPR). -/
def analysisMethods : List String :=
  ["circuitGraph", "create_hilbertspace", "add_interaction", "hamiltonian",
   "hamiltonian_results", "compute_gs", "run_epr"]

/-- Pipeline stage of a statement: `0` geometry construction, `1`
rendering/meshing, `2` external solver run, `3` post-processing analysis;
`none` for glue (imports, GUI calls, option tweaks, display). -/
def stageRank (s : PyStmt) : Option Nat :=
  match stmtTopExpr s with
  | none => none
  | some e =>
    if callsFunctionIn geometryCtors e then some 0
    else if callsMethodIn renderMethods e then some 1
    else if callsMethodIn ["run"] e then some 2
    else if callsFunctionIn analysisCtors e || callsMethodIn analysisMethods e then some 3
    else none

/-- The pipeline stages of a notebook, in execution order. -/
def stagesOf (stmts : List PyStmt) : List Nat := stmts.filterMap stageRank

/-- The list of naturals is sorted (non-decreasing). -/
def sortedLE : List Nat → Bool
  | [] => true
  | [_] => true
  | a :: b :: t => a ≤ b && sortedLE (b :: t)

/-! ## Handle open/close discipline -/

/-- Constructors whose result is a handle to an external system: the Metal
GUI window, the Gmsh renderer, the Elmer renderer, the EPR simulation. -/
def handleCtors : List String := ["MetalGUI", "QGmshRenderer", "QElmerRenderer", "EPRanalysis"]

/-- Root variable of an attribute/subscript/call chain. -/
def rootName : PyExpr → Option String
  | .name s => some s
  | .attr o _ => rootName o
  | .sub o _ => rootName o
  | .call f _ _ => rootName f
  | _ => none

/-- Variables bound by this statement to a freshly opened external handle
(renderer, GUI window, ANSYS project info, EPR simulation). -/
def opensOf : PyStmt → List String
  | .assign (.name x) (.call (.name f) _ _) => if handleCtors.contains f then [x] else []
  | .assign (.name x) (.call (.attr _ "ProjectInfo") _ _) => [x]
  | _ => []

/-- Handles closed or released by this statement (root variable of a
`.close()` or `.release()` call). -/
def closesOf : PyStmt → List String
  | .exprStmt (.call (.attr o m) [] []) =>
    if m == "close" || m == "release" then (rootName o).toList else []
  | _ => []

/-- Every handle a notebook opens is closed/released by some later-or-equal
statement of the notebook. -/
def allOpenedClosed (stmts : List PyStmt) : Bool :=
  ((stmts.map opensOf).flatten).all fun h => ((stmts.map closesOf).flatten).contains h

/-! ## `open_pins` and declared connection pads -/

/-- Parse a Python literal `[("Q1", "pad"), ...]` into pin pairs. -/
def asPinList : PyExpr → Option (List (String × String))
  | .listLit es => es.mapM fun e =>
      match e with
      | .tupleLit [.strLit a, .strLit b] => some (a, b)
      | _ => none
  | _ => none

/-- The `open_pins` argument of a `render_design` call, when the statement
is one. -/
def openPinsOf (s : PyStmt) : Option (List (String × String)) :=
  match s with
  | .exprStmt (.call (.attr _ "render_design") _ kwargs) =>
    match kwargs.lookup "open_pins" with
    | some e => asPinList e
    | none => none
  | _ => none

/-- The connection-pad names declared in a `connection_pads = dict(...)`
option dictionary bound by the statement. -/
def declaredConnectionPads (s : PyStmt) : Option (List String) :=
  match s with
  | .assign _ (.call (.name "dict") [] kwargs) =>
    match kwargs.lookup "connection_pads" with
    | some (.call (.name "dict") [] inner) => some (inner.map Prod.fst)
    | _ => none
  | _ => none

/-- The two lists hold the same set of elements. -/
def sameSet (a b : List String) : Bool := a.all b.contains && b.all a.contains

/-! ## Semantics of the ANSYS material cells (FlipChip cells 17-19)

`runFlipChipMaterialCells` executes, over an oracle for ANSYS's
`DoesMaterialExist`, the effect of the three material cells: the new
material constants, the guarded `AddMaterial` call, the four handle
releases, and the chip material assignments. -/

/-- `newMaterial_name` as set in FlipChip cell 17. -/
def newMaterialName : String := "Si_11.45"

/-- Observable outcome of FlipChip cells 17-19. -/
structure AnsysMaterialRun where
  addMaterialCalls : List String
  releaseCalls : List String
  cChipMaterial : String
  qChipMaterial : String
deriving Repr, DecidableEq

/-- Execute FlipChip cells 17-19 against an oracle telling whether a
material already exists in the ANSYS library. -/
def runFlipChipMaterialCells (doesMaterialExist : String → Bool) : AnsysMaterialRun :=
  let addCalls := if !(doesMaterialExist newMaterialName) then [newMaterialName] else []
  { addMaterialCalls := addCalls
    releaseCalls := ["ans_prj.project", "ans_prj.desktop", "ans_prj.app", "ansys"]
    cChipMaterial := newMaterialName
    qChipMaterial := newMaterialName }

/-! ## Capacitance-matrix save/load round trip (ElmerFEM cells 28 and 31) -/

/-- A capacitance matrix, as persisted to and read back from a text file. -/
abbrev CapMatrix : Type := List (List Int)

/-- The text files written so far, as a path-indexed store. -/
abbrev FileStore : Type := List (String × CapMatrix)

/-- Modelled from the spec: `QElmerRenderer.save_capacitance_matrix` (the
renderer code is not under the tutorials) persists the solver's capacitance
matrix to a text file at the given path. -/
def save_capacitance_matrix (fs : FileStore) (path : String) (m : CapMatrix) : FileStore :=
  (path, m) :: fs

/-- Modelled from the spec: `load_capacitance_matrix_from_file` (renderer
module code, not under the tutorials) reads back the capacitance matrix
stored in the text file at the given path. -/
def load_capacitance_matrix_from_file (fs : FileStore) (path : String) : Option CapMatrix :=
  (fs.find? fun e => e.1 == path).map Prod.snd

/-- Paths passed to `save_capacitance_matrix` by a statement. -/
def savePathsOf : PyStmt → List String
  | .exprStmt (.call (.attr _ "save_capacitance_matrix") [.strLit p] []) => [p]
  | _ => []

/-- Bindings `x = load_capacitance_matrix_from_file(p)` made by a statement. -/
def loadBindingsOf : PyStmt → List (String × String)
  | .assign (.name x) (.call (.name "load_capacitance_matrix_from_file")
      [.strLit p] []) => [(x, p)]
  | _ => []

/-- The variable passed as the `cap_mat` entry of the `opt1` dictionary. -/
def capMatArgsOf : PyStmt → List String
  | .assign (.name "opt1") (.call (.name "dict") [] kwargs) =>
    match kwargs.lookup "cap_mat" with
    | some (.name v) => [v]
    | _ => []
  | _ => []

/-- The statement builds the LOM `Cell` from the `opt1` dictionary. -/
def isCellFromOpt1 : PyStmt → Bool
  | .assign (.name "cell_1") (.call (.name "Cell") [.name "opt1"] []) => true
  | _ => false

/-! ## Theorems settling the claims -/

/-- Claim C1: neither notebook defines any function, class, or algorithm of
its own (no `def`, no `class`, no coroutine, not even a loop); the non-trivial
computations — meshing/rendering (stage 1), external solving (stage 2), and
Hamiltonian/LOM/EPR analysis (stage 3) — all occur as calls into the imported
external library APIs. -/
theorem c1_no_own_definitions :
    (allStmts.all fun s => !(definesFuncOrClass s || hasLoop s)) = true ∧
    (elmerStmts.any fun s => stageRank s == some 1) = true ∧
    (elmerStmts.any fun s => stageRank s == some 2) = true ∧
    (elmerStmts.any fun s => stageRank s == some 3) = true ∧
    (flipStmts.any fun s => stageRank s == some 2) = true ∧
    (flipStmts.any fun s => stageRank s == some 3) = true := by
  decide

/-- Claim C2, counterexample: the FlipChip notebook is not straight-line —
its ANSYS material cell contains a conditional branch
(`if not defmanager.DoesMaterialExist(...)`), so the claim that no cell of
any notebook contains a conditional is false. -/
theorem c2_counterexample : straightLine flipStmts = false := by decide

/-- Claim C2, amended: every statement of the ElmerFEM notebook is
straight-line; the FlipChip notebook contains no loop and exactly one
conditional, the guarded `AddMaterial` call of the ANSYS material cell; every
other statement executes exactly once, in cell order, on every run. -/
theorem c2_straight_line_except_material_guard :
    straightLine elmerStmts = true ∧
    (flipStmts.all fun s => !(hasLoop s)) = true ∧
    (flipStmts.filter hasBranch).length = 1 ∧
    (flipStmts.filter hasBranch).all isGuardedAddMaterial = true := by
  refine ⟨by decide, by decide, by decide, by decide⟩

/-- Claim C3: in both notebooks the pipeline stages are monotone — geometry
construction (0) precedes rendering/meshing (1) precedes the external solver
run (2) precedes the post-processing analysis calls (3); the first staged
statement of each notebook is geometry construction, and each notebook does
run a solver and does perform analysis, so no analysis call precedes the
corresponding simulation call. -/
theorem c3_pipeline_stage_order :
    sortedLE (stagesOf elmerStmts) = true ∧
    sortedLE (stagesOf flipStmts) = true ∧
    (stagesOf elmerStmts).head? = some 0 ∧
    (stagesOf flipStmts).head? = some 0 ∧
    (stagesOf elmerStmts).contains 2 = true ∧
    (stagesOf elmerStmts).contains 3 = true ∧
    (stagesOf flipStmts).contains 2 = true ∧
    (stagesOf flipStmts).contains 3 = true := by
  refine ⟨by decide, by decide, by decide, by decide, by decide, by decide,
    by decide, by decide⟩

/-- Claim C4: the capacitance matrix crosses from the simulation stage to the
analysis stage only through the text file `cap_matrix.txt`: the one
`save_capacitance_matrix` call and the one `load_capacitance_matrix_from_file`
call use that same path, the loaded value is bound to `cap_matrix`, which is
exactly the `cap_mat` entry of the `opt1` dictionary from which the LOM `Cell`
is built; and a save/load round trip on the same path returns the saved
matrix. -/
theorem c4_cap_matrix_roundtrip :
    (elmerStmts.map savePathsOf).flatten = ["cap_matrix.txt"] ∧
    (elmerStmts.map loadBindingsOf).flatten = [("cap_matrix", "cap_matrix.txt")] ∧
    (elmerStmts.map capMatArgsOf).flatten = ["cap_matrix"] ∧
    elmerStmts.any isCellFromOpt1 = true ∧
    ∀ (fs : FileStore) (m : CapMatrix),
      load_capacitance_matrix_from_file
        (save_capacitance_matrix fs "cap_matrix.txt" m) "cap_matrix.txt" = some m := by
  refine ⟨by decide, by decide, by decide, by decide, ?_⟩
  intro fs m
  rfl

/-- Witness for C4: the round trip evaluated at a concrete store and matrix. -/
theorem c4_roundtrip_witness :
    load_capacitance_matrix_from_file
      (save_capacitance_matrix [] "cap_matrix.txt" [[3, 1], [1, 4]])
      "cap_matrix.txt" = some [[3, 1], [1, 4]] :=
  c4_cap_matrix_roundtrip.2.2.2.2 [] [[3, 1], [1, 4]]

/-- Claim C5, counterexample: the FlipChip notebook does contain a guard that
checks an external system's state before acting — the conditional on
`defmanager.DoesMaterialExist` — so the claim that no such guard exists is
false. -/
theorem c5_counterexample : flipStmts.any isExternalStateGuard = true := by decide

/-- Claim C5, amended: no notebook cell contains a try/except or any loop
(hence no retry loop); the single guard that checks an external system's
state is the `DoesMaterialExist` check before `AddMaterial` in the FlipChip
notebook; the ElmerFEM notebook contains no guard at all, so every other
external-call failure propagates unhandled. -/
theorem c5_no_error_handling_except_guard :
    allStmts.any hasTry = false ∧
    allStmts.any hasLoop = false ∧
    (allStmts.filter isExternalStateGuard).length = 1 ∧
    (allStmts.filter isExternalStateGuard).all isGuardedAddMaterial = true ∧
    elmerStmts.any isExternalStateGuard = false := by
  refine ⟨by decide, by decide, by decide, by decide, by decide⟩

/-- Claim C6: the notebooks apply no assertion to any data they build, and
the only conditional in either notebook tests external ANSYS library state —
never a configuration dictionary or result artifact built by the notebooks —
so no invariant is enforced over the notebooks' own data. -/
theorem c6_no_assertions_or_validation :
    allStmts.any hasAssert = false ∧
    (allStmts.filter hasBranch).length = 1 ∧
    (allStmts.filter hasBranch).all isExternalStateGuard = true := by
  refine ⟨by decide, by decide, by decide⟩

/-- Claim C7: the notebooks author no concurrency — no `await` or coroutine
construct occurs, no concurrency/parallelism module is imported, and no
thread, process or pool primitive is ever mentioned; execution is the
sequential statement order of the cells. -/
theorem c7_sequential_single_threaded :
    allStmts.any hasAwait = false ∧
    ((allStmts.map importedModules).flatten.all
      fun m => !(concurrencyModules.contains m)) = true ∧
    (allStmts.any fun s =>
      stmtAnyExpr (mentionsIdent "Thread") s ||
      stmtAnyExpr (mentionsIdent "Process") s ||
      stmtAnyExpr (mentionsIdent "Pool") s ||
      stmtAnyExpr (mentionsIdent "fork") s) = false := by
  refine ⟨by decide, by decide, by decide⟩

/-- Claim C8: for any answer `b` of ANSYS's `DoesMaterialExist`,
`AddMaterial` is called exactly when `b` is false, and then only with
`newMaterial_name`; in either case both chips are subsequently assigned
material `Si_11.45`. Moreover in the notebook's code `AddMaterial` occurs in
exactly one statement, the conditional guarded by
`not defmanager.DoesMaterialExist(newMaterial_name)`. -/
theorem c8_material_guard :
    ∀ b : Bool,
      (runFlipChipMaterialCells (fun _ => b)).addMaterialCalls
          = (if b then [] else [newMaterialName]) ∧
      (runFlipChipMaterialCells (fun _ => b)).cChipMaterial = newMaterialName ∧
      (runFlipChipMaterialCells (fun _ => b)).qChipMaterial = newMaterialName ∧
      (flipStmts.filter fun s => stmtAnyExpr (mentionsIdent "AddMaterial") s).length
          = 1 ∧
      ((flipStmts.filter fun s => stmtAnyExpr (mentionsIdent "AddMaterial") s).all
        isGuardedAddMaterial) = true := by
  intro b
  cases b <;> exact ⟨by decide, by decide, by decide, by decide, by decide⟩

/-- Witness for C8: both concrete oracle answers, via the theorem itself. -/
theorem c8_material_guard_witness :
    (runFlipChipMaterialCells (fun _ => true)).addMaterialCalls = [] ∧
    (runFlipChipMaterialCells (fun _ => false)).addMaterialCalls = [newMaterialName] :=
  ⟨(c8_material_guard true).1, (c8_material_guard false).1⟩

/-- Claim C9: the ElmerFEM notebook declares exactly the connection pads
`readout`, `coupler1`, `coupler2` for the Q1 transmon, and each of the four
`render_design` calls (three on the Gmsh renderer, one on the Elmer renderer)
passes an `open_pins` list of pins of `Q1` whose pad set equals that declared
set. -/
theorem c9_open_pins_match_declared_pads :
    elmerStmts.filterMap declaredConnectionPads = [["readout", "coupler1", "coupler2"]] ∧
    (elmerStmts.filterMap openPinsOf).length = 4 ∧
    ((elmerStmts.filterMap openPinsOf).all fun pins =>
      pins.all (fun pr => pr.1 == "Q1") &&
      sameSet (pins.map Prod.snd) ["readout", "coupler1", "coupler2"]) = true := by
  refine ⟨by decide, by decide, by decide⟩

/-- Claim C10, counterexample: in the FlipChip notebook not every opened
external handle is closed — `gui = MetalGUI(design)` is opened and no
statement of that notebook ever closes or releases it — so the claim is
false for the FlipChip notebook. -/
theorem c10_counterexample : allOpenedClosed flipStmts = false := by decide

/-- Claim C10, amended: in the ElmerFEM notebook every opened external handle
(the Metal GUI, the Gmsh renderer, the Elmer renderer) is explicitly closed;
in the FlipChip notebook the ANSYS handles and the EPR simulation are
released/closed, but the Metal GUI handle `gui` is opened and never closed. -/
theorem c10_handles_closed_except_flipchip_gui :
    allOpenedClosed elmerStmts = true ∧
    (flipStmts.map opensOf).flatten = ["gui", "ans_prj", "eig_fc"] ∧
    ((flipStmts.map closesOf).flatten).contains "ans_prj" = true ∧
    ((flipStmts.map closesOf).flatten).contains "eig_fc" = true ∧
    ((flipStmts.map closesOf).flatten).contains "gui" = false := by
  refine ⟨by decide, by decide, by decide, by decide, by decide⟩

end QiskitMetalNotebooks
